import Mathlib

/-!
Verification of the musicsite playback component (src/app/player.tsx, canonical
third variant) and its catalog listing endpoint (src/app/api/music/route.ts).

The player is a single React component.  Its reactive state hooks are collected
into one `PlayerState` record, and every event handler of the source is
translated into a pure state-transition function.  Asynchronous outcomes that
the environment decides (whether a play() promise resolves, the value of
Math.random(), whether an AudioContext.resume() succeeds) are passed in as
explicit parameters.  Times and pointer coordinates are modelled as rationals.
-/

namespace MusicSite

/-- The React state of the MusicPlayer component (player.tsx 1506-1526), plus
the observable state of the underlying HTMLAudioElement (`audioPaused`,
`audioTime`) and of the shared AudioContext (`ctxSuspended`), and whether the
100 ms progress-tracking interval is currently installed (`polling`). -/
structure PlayerState where
  tracks : List String
  currentTrack : Option String
  isPlaying : Bool
  isLoading : Bool
  error : Option String
  muted : Bool
  retryCount : Nat
  currentTime : ℚ
  duration : ℚ
  isDragging : Bool
  lastDragPosition : Option ℚ
  trackEnded : Bool
  polling : Bool
  showStartOverlay : Bool
  audioPaused : Bool
  audioTime : ℚ
  ctxSuspended : Bool
  deriving DecidableEq

/-- Initial hook values (player.tsx 1506-1526): no tracks, no current track,
not playing, start overlay shown; the audio element starts paused at 0 and the
AudioContext (once created) starts suspended until a user gesture resumes it. -/
def initState : PlayerState :=
  { tracks := [], currentTrack := none, isPlaying := false, isLoading := false,
    error := none, muted := false, retryCount := 0, currentTime := 0, duration := 0,
    isDragging := false, lastDragPosition := none, trackEnded := false, polling := false,
    showStartOverlay := true, audioPaused := true, audioTime := 0, ctxSuspended := true }

/-- Math.floor(r * n) for a random draw r and catalog size n
(player.tsx 1541: the index into availableTracks). -/
def randomIndex (r : ℚ) (n : Nat) : Nat :=
  (⌊r * (n : ℚ)⌋).toNat

/-- selectRandomTrack (player.tsx 1537-1549): returns null on an empty list;
otherwise picks availableTracks[Math.floor(Math.random() * length)], sets it as
the current track and resets retryCount to 0.  The random draw
r = Math.random() is an explicit parameter with 0 ≤ r < 1.  The `none` fallback
of the lookup is unreachable for such r (`randomIndex_lt` below). -/
def selectRandomTrack (r : ℚ) (st : PlayerState) : Option String × PlayerState :=
  if st.tracks.length = 0 then (none, st)
  else
    match st.tracks.get? (randomIndex r st.tracks.length) with
    | some newTrack =>
        (some newTrack, { st with currentTrack := some newTrack, retryCount := 0 })
    | none => (none, st)

theorem randomIndex_lt (r : ℚ) (n : Nat) (h0 : 0 ≤ r) (h1 : r < 1) (hn : 0 < n) :
    randomIndex r n < n := by
  have hfl : ⌊r * (n : ℚ)⌋ < (n : ℤ) := by
    rw [Int.floor_lt]
    push_cast
    exact mul_lt_of_lt_one_left (by exact_mod_cast hn) h1
  have hge : 0 ≤ ⌊r * (n : ℚ)⌋ :=
    Int.floor_nonneg.2 (mul_nonneg h0 (by positivity))
  unfold randomIndex
  omega

theorem randomIndex_eq_iff (r : ℚ) (n i : Nat) (h0 : 0 ≤ r) (hn : 0 < n) :
    randomIndex r n = i ↔ ((i : ℚ) / n ≤ r ∧ r < ((i : ℚ) + 1) / n) := by
  have hge : 0 ≤ ⌊r * (n : ℚ)⌋ :=
    Int.floor_nonneg.2 (mul_nonneg h0 (by positivity))
  have hnq : (0 : ℚ) < (n : ℚ) := by exact_mod_cast hn
  have h1 : randomIndex r n = i ↔ ⌊r * (n : ℚ)⌋ = (i : ℤ) := by
    unfold randomIndex
    omega
  rw [h1, Int.floor_eq_iff]
  constructor
  · rintro ⟨ha, hb⟩
    constructor
    · rw [div_le_iff₀ hnq]
      calc ((i : ℚ)) = ((i : ℤ) : ℚ) := by push_cast; ring
        _ ≤ r * n := ha
        _ = r * n := rfl
    · rw [lt_div_iff₀ hnq]
      calc r * n < (i : ℤ) + 1 := hb
        _ = (i : ℚ) + 1 := by push_cast; ring
  · rintro ⟨ha, hb⟩
    constructor
    · calc ((i : ℤ) : ℚ) = (i : ℚ) := by push_cast; ring
        _ ≤ r * n := (div_le_iff₀ hnq).1 ha
    · calc r * n < (i : ℚ) + 1 := (lt_div_iff₀ hnq).1 hb
        _ = ((i : ℤ) : ℚ) + 1 := by push_cast; ring

/-- On a nonempty catalog and a proper random draw, selectRandomTrack picks the
entry at `randomIndex`, a member of the catalog, and the state update sets the
current track to it and resets retryCount to 0. -/
theorem selectRandomTrack_nonempty (r : ℚ) (st : PlayerState)
    (h0 : 0 ≤ r) (h1 : r < 1) (hne : st.tracks ≠ []) :
    ∃ h : randomIndex r st.tracks.length < st.tracks.length,
      selectRandomTrack r st =
        (some (st.tracks.get ⟨randomIndex r st.tracks.length, h⟩),
         { st with currentTrack := some (st.tracks.get ⟨randomIndex r st.tracks.length, h⟩),
                   retryCount := 0 }) ∧
      st.tracks.get ⟨randomIndex r st.tracks.length, h⟩ ∈ st.tracks := by
  have hlen : 0 < st.tracks.length := List.length_pos.2 hne
  have hidx : randomIndex r st.tracks.length < st.tracks.length :=
    randomIndex_lt r st.tracks.length h0 h1 hlen
  refine ⟨hidx, ?_, List.get_mem _ _ _⟩
  unfold selectRandomTrack
  rw [if_neg (by omega), List.get?_eq_get hidx]

/-- C5. For every nonempty track catalog, selectTrack() returns a member of the
catalog — the entry at index ⌊r·n⌋ — chosen uniformly at random with
replacement (the draws r selecting index i form exactly the interval
[i/n, (i+1)/n), of length 1/n independent of i, so every catalog entry —
including the currently playing one — is selected with equal probability), and
the update resets retryCount to 0; for an empty catalog it returns none and
leaves the state, in particular currentTrack, unchanged. -/
theorem selectRandomTrack_spec (r : ℚ) (st : PlayerState) (h0 : 0 ≤ r) (h1 : r < 1) :
    (st.tracks ≠ [] →
      ∃ t, t ∈ st.tracks ∧
        selectRandomTrack r st = (some t, { st with currentTrack := some t, retryCount := 0 })) ∧
    (∀ i : Nat, i < st.tracks.length →
      (randomIndex r st.tracks.length = i ↔
        ((i : ℚ) / st.tracks.length ≤ r ∧ r < ((i : ℚ) + 1) / st.tracks.length))) ∧
    (st.tracks = [] → selectRandomTrack r st = (none, st)) := by
  refine ⟨?_, ?_, ?_⟩
  · intro hne
    obtain ⟨h, heq, hmem⟩ := selectRandomTrack_nonempty r st h0 h1 hne
    exact ⟨_, hmem, heq⟩
  · intro i hi
    exact randomIndex_eq_iff r st.tracks.length i h0 (by omega)
  · intro hempty
    unfold selectRandomTrack
    rw [if_pos (by simp [hempty])]

/-- A concrete two-track state for exercising the theorems, matching the
spec scenario with catalog {"a.mp3", "b.mp3"}. -/
def demoCatalogState : PlayerState :=
  { initState with tracks := ["a.mp3", "b.mp3"] }

/-- Witness for C5 at the concrete catalog ["a.mp3", "b.mp3"] and the draw
r = 1/2 (which forces index 1, hence track "b.mp3"). -/
theorem selectRandomTrack_spec_witness :
    (demoCatalogState.tracks ≠ [] →
      ∃ t, t ∈ demoCatalogState.tracks ∧
        selectRandomTrack (1/2) demoCatalogState =
          (some t, { demoCatalogState with currentTrack := some t, retryCount := 0 })) ∧
    (∀ i : Nat, i < demoCatalogState.tracks.length →
      (randomIndex (1/2) demoCatalogState.tracks.length = i ↔
        ((i : ℚ) / demoCatalogState.tracks.length ≤ 1/2 ∧
         (1/2 : ℚ) < ((i : ℚ) + 1) / demoCatalogState.tracks.length))) ∧
    (demoCatalogState.tracks = [] →
      selectRandomTrack (1/2) demoCatalogState = (none, demoCatalogState)) :=
  selectRandomTrack_spec (1/2) demoCatalogState (by norm_num) (by norm_num)

/-- Outcome of one invocation of the audio-element error handler: either the
current track is kept and a reload-plus-delayed-replay is scheduled, or
selectRandomTrack was invoked to move to a replacement track. -/
inductive ErrStep where
  | retryScheduled
  | selectedNew (t : Option String)
  deriving DecidableEq

/-- handleError (player.tsx 1935-1969): stores the error message, stops the
progress interval, then — if retryCount < 3 — increments retryCount, reloads
the current track (audioRef.current.load()) and schedules a play() reattempt
after a fixed 1000 ms delay; otherwise ("Max retries reached") it calls
selectRandomTrack() to move to a replacement track.  The random draw r is used
only on the selection branch. -/
def handleError (msg : String) (r : ℚ) (st : PlayerState) : PlayerState × ErrStep :=
  let st1 := { st with error := some ("Error playing the track: " ++ msg), polling := false }
  if st1.retryCount < 3 then
    ({ st1 with retryCount := st1.retryCount + 1 }, ErrStep.retryScheduled)
  else
    let sel := selectRandomTrack r st1
    (sel.2, ErrStep.selectedNew sel.1)

/-- n consecutive error events on the audio element with no intervening
success: the element fires `error` n times in a row (e.g. a decode or network
error on each reload) and handleError runs each time. -/
def consecutiveErrorEvents (msg : String) (r : ℚ) : Nat → PlayerState → PlayerState
  | 0, st => st
  | n + 1, st => consecutiveErrorEvents msg r n (handleError msg r st).1

theorem handleError_of_lt (msg : String) (r : ℚ) (st : PlayerState)
    (h : st.retryCount < 3) :
    handleError msg r st =
      ({ st with error := some ("Error playing the track: " ++ msg), polling := false,
                 retryCount := st.retryCount + 1 }, ErrStep.retryScheduled) := by
  unfold handleError
  rw [if_pos h]

/-- On the exhausted branch (retryCount ≥ 3) with a nonempty catalog, the
error handler hands over to selectRandomTrack: some catalog member becomes the
current track and retryCount is reset to 0 by the selection. -/
theorem handleError_of_ge (msg : String) (r : ℚ) (st : PlayerState)
    (h0 : 0 ≤ r) (h1 : r < 1) (h : ¬ st.retryCount < 3) (hne : st.tracks ≠ []) :
    ∃ t, t ∈ st.tracks ∧
      (handleError msg r st).2 = ErrStep.selectedNew (some t) ∧
      (handleError msg r st).1.currentTrack = some t ∧
      (handleError msg r st).1.retryCount = 0 := by
  unfold handleError
  rw [if_neg h]
  obtain ⟨hidx, heq, hmem⟩ := selectRandomTrack_nonempty r
    { st with error := some ("Error playing the track: " ++ msg), polling := false }
    h0 h1 hne
  exact ⟨_, hmem, by rw [heq], by rw [heq], by rw [heq]⟩

/-- A state in the middle of failing playback of "a.mp3" out of the two-track
catalog, with no retries consumed yet. -/
def demoErrState : PlayerState :=
  { demoCatalogState with currentTrack := some "a.mp3" }

/-- C1 counterexample: starting from retryCount = 0 on track "a.mp3", after
exactly 3 consecutive PlaybackFailed (audio error) events with no intervening
success the session has NOT selected a different track and has NOT reset
retryCount to 0 — the current track is still "a.mp3", retryCount is 3, and the
third event itself still scheduled a retry of the same track.  (Selection only
happens on the event after that, because the retryCount < 3 branch increments
retryCount and retries.) -/
theorem handleError_three_events_counterexample :
    (consecutiveErrorEvents "decode" (1/2) 3 demoErrState).currentTrack = some "a.mp3" ∧
    (consecutiveErrorEvents "decode" (1/2) 3 demoErrState).retryCount = 3 ∧
    (handleError "decode" (1/2)
        (consecutiveErrorEvents "decode" (1/2) 2 demoErrState)).2 = ErrStep.retryScheduled := by
  refine ⟨?_, ?_, ?_⟩ <;> decide

/-- C1 (amended): when a playback error occurs and retryCount < 3, the session
increments retryCount by one, keeps (and reloads) the current track, and
reattempts play after a fixed 1000 ms delay; it is after the FOURTH — not the
third — consecutive PlaybackFailed event on the same track without an
intervening success (the initial failure plus three failed retries) that the
session invokes selectTrack() — whose uniform-with-replacement draw may also
re-pick the same track — and resets retryCount to 0. -/
theorem handleError_spec (msg : String) (r : ℚ) (st : PlayerState)
    (h0 : 0 ≤ r) (h1 : r < 1) (hne : st.tracks ≠ []) (hrc : st.retryCount = 0) :
    (∀ s : PlayerState, s.retryCount < 3 →
      (handleError msg r s).1.retryCount = s.retryCount + 1 ∧
      (handleError msg r s).1.currentTrack = s.currentTrack ∧
      (handleError msg r s).2 = ErrStep.retryScheduled) ∧
    (consecutiveErrorEvents msg r 3 st).retryCount = 3 ∧
    (consecutiveErrorEvents msg r 3 st).currentTrack = st.currentTrack ∧
    (∃ t, t ∈ st.tracks ∧
      (handleError msg r (consecutiveErrorEvents msg r 3 st)).2 = ErrStep.selectedNew (some t) ∧
      (handleError msg r (consecutiveErrorEvents msg r 3 st)).1.currentTrack = some t ∧
      (handleError msg r (consecutiveErrorEvents msg r 3 st)).1.retryCount = 0) := by
  have hstep : ∀ s : PlayerState, s.retryCount < 3 →
      (handleError msg r s).1.retryCount = s.retryCount + 1 ∧
      (handleError msg r s).1.currentTrack = s.currentTrack ∧
      (handleError msg r s).2 = ErrStep.retryScheduled := by
    intro s hs
    rw [handleError_of_lt msg r s hs]
    exact ⟨rfl, rfl, rfl⟩
  have hst3 : consecutiveErrorEvents msg r 3 st =
      { st with error := some ("Error playing the track: " ++ msg), polling := false,
                retryCount := 3 } := by
    show consecutiveErrorEvents msg r 2 (handleError msg r st).1 = _
    rw [handleError_of_lt msg r st (by omega)]
    show consecutiveErrorEvents msg r 1 (handleError msg r _).1 = _
    rw [handleError_of_lt msg r _ (by simp [hrc])]
    show consecutiveErrorEvents msg r 0 (handleError msg r _).1 = _
    rw [handleError_of_lt msg r _ (by simp [hrc])]
    simp [consecutiveErrorEvents, hrc]
  refine ⟨hstep, by rw [hst3], by rw [hst3], ?_⟩
  obtain ⟨t, hmem, h2, h3, h4⟩ :=
    handleError_of_ge msg r (consecutiveErrorEvents msg r 3 st) h0 h1
      (by rw [hst3]; simp) (by rw [hst3]; simpa using hne)
  exact ⟨t, by rw [hst3] at hmem; simpa using hmem, h2, h3, h4⟩

/-- Witness for C1 (amended) at the concrete state demoErrState with draw 1/2. -/
theorem handleError_spec_witness :
    (∀ s : PlayerState, s.retryCount < 3 →
      (handleError "decode" (1/2) s).1.retryCount = s.retryCount + 1 ∧
      (handleError "decode" (1/2) s).1.currentTrack = s.currentTrack ∧
      (handleError "decode" (1/2) s).2 = ErrStep.retryScheduled) ∧
    (consecutiveErrorEvents "decode" (1/2) 3 demoErrState).retryCount = 3 ∧
    (consecutiveErrorEvents "decode" (1/2) 3 demoErrState).currentTrack =
      demoErrState.currentTrack ∧
    (∃ t, t ∈ demoErrState.tracks ∧
      (handleError "decode" (1/2)
          (consecutiveErrorEvents "decode" (1/2) 3 demoErrState)).2 =
        ErrStep.selectedNew (some t) ∧
      (handleError "decode" (1/2)
          (consecutiveErrorEvents "decode" (1/2) 3 demoErrState)).1.currentTrack = some t ∧
      (handleError "decode" (1/2)
          (consecutiveErrorEvents "decode" (1/2) 3 demoErrState)).1.retryCount = 0) :=
  handleError_spec "decode" (1/2) demoErrState (by norm_num) (by norm_num)
    (by decide) (by decide)

/-- retryCurrentTrack (player.tsx 1980-2027): bails out when there is no audio
element or no current track; otherwise sets loading, clears the error, resets
the displayed position to 0, resumes a suspended AudioContext, rebuilds the
source element for the SAME /music/<currentTrack> URL, reloads, and after a
fixed 500 ms delay calls play(); on success it marks playing and restarts the
progress interval, on failure it marks not playing and stores an error.
`playOk` is the outcome of that play() promise.  The function never touches
retryCount (there is no setRetryCount call anywhere in it). -/
def retryCurrentTrack (playOk : Bool) (st : PlayerState) : PlayerState :=
  match st.currentTrack with
  | none => st
  | some _ =>
      let st1 := { st with isLoading := true, error := none, currentTime := 0,
                           ctxSuspended := false, audioPaused := true, audioTime := 0 }
      if playOk then
        { st1 with isPlaying := true, isLoading := false, polling := true,
                   audioPaused := false }
      else
        { st1 with isPlaying := false, isLoading := false,
                   error := some "Failed to play the track. Please try again." }

/-- A state on track "a.mp3" with two automatic retries already consumed. -/
def demoRetryState : PlayerState :=
  { demoCatalogState with currentTrack := some "a.mp3", retryCount := 2 }

/-- C2 counterexample: invoking retryCurrentTrack with currentTrack = "a.mp3"
and retryCount = 2 reloads the same track, but retryCount is still 2
afterwards — the operation does NOT reset retryCount to 0, on either play
outcome. -/
theorem retryCurrentTrack_counterexample :
    (retryCurrentTrack true demoRetryState).currentTrack = some "a.mp3" ∧
    (retryCurrentTrack true demoRetryState).retryCount = 2 ∧
    (retryCurrentTrack true demoRetryState).retryCount ≠ 0 ∧
    (retryCurrentTrack false demoRetryState).retryCount = 2 := by
  refine ⟨?_, ?_, ?_, ?_⟩ <;> decide

/-- C2 (amended): retryCurrentTrack(), invoked with a non-null currentTrack,
reloads the same track — currentTrack is unchanged by the operation — clears
the surfaced error and resets the displayed position to 0, but leaves
retryCount unchanged (it does not reset it to 0). -/
theorem retryCurrentTrack_spec (playOk : Bool) (st : PlayerState) (t : String)
    (h : st.currentTrack = some t) :
    (retryCurrentTrack playOk st).currentTrack = st.currentTrack ∧
    (retryCurrentTrack playOk st).retryCount = st.retryCount ∧
    (retryCurrentTrack playOk st).currentTime = 0 ∧
    (playOk = true → (retryCurrentTrack playOk st).error = none) := by
  unfold retryCurrentTrack
  rw [h]
  cases playOk <;> simp

/-- Witness for C2 (amended) at the concrete state demoRetryState. -/
theorem retryCurrentTrack_spec_witness :
    (retryCurrentTrack true demoRetryState).currentTrack = demoRetryState.currentTrack ∧
    (retryCurrentTrack true demoRetryState).retryCount = demoRetryState.retryCount ∧
    (retryCurrentTrack true demoRetryState).currentTime = 0 ∧
    (true = true → (retryCurrentTrack true demoRetryState).error = none) :=
  retryCurrentTrack_spec true demoRetryState "a.mp3" (by decide)

/-- handleProgressBarInteraction (player.tsx 1591-1638), with the transport
writes it performs recorded in an accompanying list.  `isDraggingCaptured` is
the value of the isDragging state variable captured by the invoked closure at
the render that created it — NOT necessarily the current value, because React
state reads inside a callback see the values of the render the callback was
built in.  `dur`, `barLeft`, `barWidth` are the captured duration and the
progress-bar bounding rectangle.  When duration is unknown (0 before metadata)
or ≤ 0 the handler returns immediately.  Otherwise it clamps the relative
pointer position into [0,1], updates the displayed time and the last drag
position, and — only when the captured isDragging is false — also writes
audio.currentTime (a transport seek). -/
def handleProgressBarInteraction (isDraggingCaptured : Bool)
    (dur barLeft barWidth clientX : ℚ) (p : PlayerState × List ℚ) :
    PlayerState × List ℚ :=
  if dur ≤ 0 then p
  else
    let position := (clientX - barLeft) / barWidth
    let clampedPosition := max 0 (min 1 position)
    let newTime := clampedPosition * dur
    let st1 := { p.1 with currentTime := newTime, lastDragPosition := some clampedPosition }
    if isDraggingCaptured then (st1, p.2)
    else ({ st1 with audioTime := newTime }, p.2 ++ [newTime])

/-- The mouseup/touchend closure installed by handleProgressBarDown
(player.tsx 1675-1710): clears isDragging, then — via the always-current
lastDragPositionRef — commits one seek to lastDragPosition * duration, updates
the displayed time, and restarts the progress interval. -/
def handleProgressBarUp (dur : ℚ) (p : PlayerState × List ℚ) : PlayerState × List ℚ :=
  let st1 := { p.1 with isDragging := false }
  match st1.lastDragPosition with
  | some pos =>
      ({ st1 with audioTime := pos * dur, currentTime := pos * dur, polling := true },
       p.2 ++ [pos * dur])
  | none => ({ st1 with polling := true }, p.2)

/-- The part of a drag gesture handled before release: handleProgressBarDown
(player.tsx 1641-1722) sets isDragging, stops the progress interval, and runs
one interaction for the mousedown point; the document-level move listener it
installs then runs one interaction per pointer move.  Both the mousedown call
and the move listener invoke the handleProgressBarInteraction closure of the
render in which the mousedown ran — a render where isDragging was still false
(setIsDragging(true) only takes effect on the NEXT render, and the document
listeners are never re-registered afterwards) — so every one of these calls
runs with isDraggingCaptured = false. -/
def dragInProgress (dur barLeft barWidth downX : ℚ) (moves : List ℚ)
    (st : PlayerState) : PlayerState × List ℚ :=
  let st0 := { st with isDragging := true, polling := false }
  let p1 := handleProgressBarInteraction false dur barLeft barWidth downX (st0, [])
  moves.foldl (fun p x => handleProgressBarInteraction false dur barLeft barWidth x p) p1

/-- A complete drag gesture: mousedown at `downX`, pointer moves at `moves`,
then mouseup.  The recorded list is every write to audio.currentTime, in
order. -/
def dragGesture (dur barLeft barWidth downX : ℚ) (moves : List ℚ)
    (st : PlayerState) : PlayerState × List ℚ :=
  handleProgressBarUp dur (dragInProgress dur barLeft barWidth downX moves st)

/-- C3 (code bug): with duration 100 s and a progress bar spanning x ∈ [0,200],
a drag gesture that presses at x = 50, moves to x = 100 and releases writes
the transport position three times — 25 s at the press, 50 s at the move and
50 s again at the release — and in particular has already written it twice
before the gesture ends.  The code's own comment (player.tsx 1630: during a
drag give visual feedback only, the real seek happens at drag end) and the
claim both call for a single transport write, at gesture end: the deviation
comes from the stale isDragging = false captured by the closures that the
mousedown call and the document-level move listener invoke. -/
theorem dragGesture_writes_during_drag :
    (dragInProgress 100 0 200 50 [100] initState).2 = [25, 50] ∧
    (dragInProgress 100 0 200 50 [100] initState).1.audioTime = 50 ∧
    (dragGesture 100 0 200 50 [100] initState).2 = [25, 50, 50] := by
  refine ⟨?_, ?_, ?_⟩ <;>
    norm_num [dragGesture, dragInProgress, handleProgressBarInteraction,
      handleProgressBarUp, initState, List.foldl]

/-- C6. Seeking maps a pointer coordinate x to
time = clamp((x - barLeft)/barWidth, 0, 1) * duration: for any rational
pointer coordinate the displayed position — and, on the immediate-seek (click)
path, the written transport position — equals that value and lies in
[0, duration]; when the duration is unknown (0) or ≤ 0 the handler is a
no-op. -/
theorem seek_clamp_spec (isDrag : Bool) (dur barLeft barWidth clientX : ℚ)
    (p : PlayerState × List ℚ) (hdur : 0 < dur) :
    (∀ d : ℚ, d ≤ 0 → handleProgressBarInteraction isDrag d barLeft barWidth clientX p = p) ∧
    (handleProgressBarInteraction isDrag dur barLeft barWidth clientX p).1.currentTime =
      max 0 (min 1 ((clientX - barLeft) / barWidth)) * dur ∧
    0 ≤ (handleProgressBarInteraction isDrag dur barLeft barWidth clientX p).1.currentTime ∧
    (handleProgressBarInteraction isDrag dur barLeft barWidth clientX p).1.currentTime ≤ dur ∧
    (isDrag = false →
      (handleProgressBarInteraction isDrag dur barLeft barWidth clientX p).1.audioTime =
        max 0 (min 1 ((clientX - barLeft) / barWidth)) * dur) := by
  set c : ℚ := max 0 (min 1 ((clientX - barLeft) / barWidth)) with hc
  have hc0 : 0 ≤ c := le_max_left 0 _
  have hc1 : c ≤ 1 := max_le (by norm_num) (min_le_left 1 _)
  have hbounds : 0 ≤ c * dur ∧ c * dur ≤ dur :=
    ⟨mul_nonneg hc0 (le_of_lt hdur),
     mul_le_of_le_one_left (le_of_lt hdur) hc1⟩
  refine ⟨?_, ?_, ?_, ?_, ?_⟩
  · intro d hd
    unfold handleProgressBarInteraction
    rw [if_pos hd]
  all_goals
    unfold handleProgressBarInteraction
    rw [if_neg (not_le.2 hdur)]
  · cases isDrag <;> simp [hc]
  · cases isDrag <;> simpa [hc] using hbounds.1
  · cases isDrag <;> simpa [hc] using hbounds.2
  · intro hfalse
    subst hfalse
    simp [hc]

/-- Witness for C6 at concrete inputs: duration 100 s, bar [0,200], click at
x = 50 (clamped position 1/4, time 25 s). -/
theorem seek_clamp_spec_witness :
    (∀ d : ℚ, d ≤ 0 →
      handleProgressBarInteraction false d 0 200 50 (initState, []) = (initState, [])) ∧
    (handleProgressBarInteraction false 100 0 200 50 (initState, [])).1.currentTime =
      max 0 (min 1 ((50 - 0) / 200)) * 100 ∧
    0 ≤ (handleProgressBarInteraction false 100 0 200 50 (initState, [])).1.currentTime ∧
    (handleProgressBarInteraction false 100 0 200 50 (initState, [])).1.currentTime ≤ 100 ∧
    (false = false →
      (handleProgressBarInteraction false 100 0 200 50 (initState, [])).1.audioTime =
        max 0 (min 1 ((50 - 0) / 200)) * 100) :=
  seek_clamp_spec false 100 0 200 50 (initState, []) (by norm_num)

/-- skipToNext (player.tsx 1927-1932): stops the progress interval, resets the
displayed position to 0 and selects a random next track.  It does not set the
trackEnded flag and does not call play(). -/
def skipToNext (r : ℚ) (st : PlayerState) : PlayerState :=
  let st1 := { st with polling := false, currentTime := 0 }
  (selectRandomTrack r st1).2

/-- handleTrackEnded (player.tsx 1910-1924): marks trackEndedRef, stops the
progress interval, resets the displayed position and selects the next random
track; it additionally schedules an explicit startPlayback() 500 ms later, so
playback continues even if the session was not in Playing state.  The
track-change effect below observes the trackEnded flag set here. -/
def handleTrackEnded (r : ℚ) (st : PlayerState) : PlayerState :=
  let st1 := { st with trackEnded := true, polling := false, currentTime := 0 }
  (selectRandomTrack r st1).2

/-- The track-change useEffect (player.tsx 2085-2129): when currentTrack is
set, it enters loading, resets the displayed position, stops the progress
interval and reloads the audio element with the new /music/<currentTrack>
source (load() leaves the element paused at 0).  Only if the session was
already playing or the change was triggered by the track ending does it then
call play() on the new track: on success it clears loading and the error,
restarts the progress interval and clears the trackEnded flag; on failure it
marks not playing and stores an error.  Otherwise it just clears loading — the
new track is loaded but not auto-started.  The returned Bool reports whether
an automatic play() was issued. -/
def trackChangeEffect (playOk : Bool) (st : PlayerState) : PlayerState × Bool :=
  match st.currentTrack with
  | none => (st, false)
  | some _ =>
      let st1 := { st with isLoading := true, currentTime := 0, polling := false,
                           audioPaused := true, audioTime := 0 }
      if st1.isPlaying || st1.trackEnded then
        if playOk then
          ({ st1 with isLoading := false, error := none, polling := true,
                      trackEnded := false, audioPaused := false }, true)
        else
          ({ st1 with isPlaying := false, isLoading := false,
                      error := some "Failed to play the new track. Please try again." }, true)
      else
        ({ st1 with isLoading := false }, false)

/-- C4. After a track change the new track auto-starts iff the session was
already Playing or the change was caused by end-of-track: (i) the change
effect issues a play() — and, when that play() succeeds, leaves the underlying
output running — exactly when isPlaying or trackEnded held; (ii) a skip while
Paused (and not at end of track) loads the new track but does not auto-start
it (no play() issued, output left paused); (iii) after onTrackEnded() the
change effect always auto-plays the selected next track, even when the session
had dropped out of Playing state (isPlaying = false). -/
theorem trackChange_autoplay_spec (r : ℚ) (playOk : Bool) (st : PlayerState) (t : String)
    (h0 : 0 ≤ r) (h1 : r < 1) (hne : st.tracks ≠ []) (ht : st.currentTrack = some t) :
    (((trackChangeEffect playOk st).2 = true ↔
        (st.isPlaying = true ∨ st.trackEnded = true)) ∧
      ((trackChangeEffect true st).1.audioPaused = false ↔
        (st.isPlaying = true ∨ st.trackEnded = true))) ∧
    (st.isPlaying = false → st.trackEnded = false →
      (trackChangeEffect playOk (skipToNext r st)).2 = false ∧
      (trackChangeEffect playOk (skipToNext r st)).1.audioPaused = true) ∧
    ((trackChangeEffect true (handleTrackEnded r st)).2 = true ∧
      (trackChangeEffect true (handleTrackEnded r st)).1.audioPaused = false) := by
  have hnonempty : ∀ s : PlayerState, s.tracks = st.tracks →
      ∃ u, (selectRandomTrack r s).2 = { s with currentTrack := some u, retryCount := 0 } := by
    intro s hs
    obtain ⟨h, heq, _⟩ := selectRandomTrack_nonempty r s h0 h1 (hs ▸ hne)
    exact ⟨_, by rw [heq]⟩
  refine ⟨⟨?_, ?_⟩, ?_, ?_⟩
  · unfold trackChangeEffect
    rw [ht]
    cases hp : st.isPlaying <;> cases hte : st.trackEnded <;> cases playOk <;> simp
  · unfold trackChangeEffect
    rw [ht]
    cases hp : st.isPlaying <;> cases hte : st.trackEnded <;> simp
  · intro hp hte
    obtain ⟨u, hu⟩ := hnonempty { st with polling := false, currentTime := 0 } rfl
    unfold skipToNext
    rw [hu]
    simp [trackChangeEffect, hp, hte]
  · obtain ⟨u, hu⟩ := hnonempty
      { st with trackEnded := true, polling := false, currentTime := 0 } rfl
    unfold handleTrackEnded
    rw [hu]
    simp [trackChangeEffect]

/-- Witness for C4 at a concrete paused state on the two-track catalog. -/
theorem trackChange_autoplay_spec_witness :
    (((trackChangeEffect true demoErrState).2 = true ↔
        (demoErrState.isPlaying = true ∨ demoErrState.trackEnded = true)) ∧
      ((trackChangeEffect true demoErrState).1.audioPaused = false ↔
        (demoErrState.isPlaying = true ∨ demoErrState.trackEnded = true))) ∧
    (demoErrState.isPlaying = false → demoErrState.trackEnded = false →
      (trackChangeEffect true (skipToNext (1/2) demoErrState)).2 = false ∧
      (trackChangeEffect true (skipToNext (1/2) demoErrState)).1.audioPaused = true) ∧
    ((trackChangeEffect true (handleTrackEnded (1/2) demoErrState)).2 = true ∧
      (trackChangeEffect true (handleTrackEnded (1/2) demoErrState)).1.audioPaused = false) :=
  trackChange_autoplay_spec (1/2) true demoErrState "a.mp3"
    (by norm_num) (by norm_num) (by decide) (by decide)

/-- The pause operation: the isPlaying branch of togglePlayPause
(player.tsx 1879-1882) — audioRef.current.pause(), setIsPlaying(false),
stopProgressTracking().  HTMLMediaElement.pause() never throws and is a no-op
on an already-paused element, so the whole operation is a total function with
no failure branch; the same transition is performed by the element's pause
event handler (player.tsx 2384-2387) and the watchdog (player.tsx 2136-2142),
which can run while the session already believes it is paused. -/
def pauseOp (st : PlayerState) : PlayerState :=
  { st with audioPaused := true, isPlaying := false, polling := false }

/-- C10. Invoking the pause operation when the transport is already Paused
changes neither the transport state nor currentTrack nor the positions
(displayed and underlying), and it never throws (the operation is total, with
no error branch: lastError is untouched); pausing twice in a row yields
exactly the same state as pausing once, unconditionally. -/
theorem pause_idempotent_spec (st : PlayerState) :
    (st.isPlaying = false →
      (pauseOp st).isPlaying = st.isPlaying ∧
      (pauseOp st).currentTrack = st.currentTrack ∧
      (pauseOp st).currentTime = st.currentTime ∧
      (pauseOp st).audioTime = st.audioTime ∧
      (pauseOp st).error = st.error) ∧
    pauseOp (pauseOp st) = pauseOp st := by
  refine ⟨fun hp => ⟨by simp [pauseOp, hp], rfl, rfl, rfl, rfl⟩, rfl⟩

/-- Witness for C10 at the concrete already-paused state demoErrState. -/
theorem pause_idempotent_spec_witness :
    (demoErrState.isPlaying = false →
      (pauseOp demoErrState).isPlaying = demoErrState.isPlaying ∧
      (pauseOp demoErrState).currentTrack = demoErrState.currentTrack ∧
      (pauseOp demoErrState).currentTime = demoErrState.currentTime ∧
      (pauseOp demoErrState).audioTime = demoErrState.audioTime ∧
      (pauseOp demoErrState).error = demoErrState.error) ∧
    pauseOp (pauseOp demoErrState) = pauseOp demoErrState :=
  pause_idempotent_spec demoErrState

/-- handleVisibilityChange (player.tsx 2148-2188), with the number of play()
attempts it makes returned alongside the new state.  On becoming visible it
resumes a suspended AudioContext (resume may fail, which is only logged), and
then — if the session believes it is playing but the element is paused —
awaits exactly one play(): on success the progress interval restarts, on
failure the session falls back to not-playing with the interval stopped, and
no error message is set (the failure is only logged).  On becoming hidden it
only stops the progress interval when playing; playback itself is untouched. -/
def handleVisibilityChange (visible resumeOk playOk : Bool) (st : PlayerState) :
    PlayerState × Nat :=
  if visible then
    let st1 := if st.ctxSuspended && resumeOk then { st with ctxSuspended := false } else st
    if st1.isPlaying && st1.audioPaused then
      if playOk then ({ st1 with audioPaused := false, polling := true }, 1)
      else ({ st1 with isPlaying := false, polling := false }, 1)
    else (st1, 0)
  else
    if st.isPlaying then ({ st with polling := false }, 0) else (st, 0)

/-- C8. Visibility round-trip while Playing: on hide, position polling stops
but playback is not stopped (isPlaying, audioPaused and the element position
are untouched and no play/pause is issued); on show, a suspended audio context
is resumed, and if the transport is Playing while the underlying output is
paused the session makes exactly one play() attempt — on success polling
resumes, on failure the session transitions to Paused (isPlaying = false)
without setting an error. -/
theorem visibility_roundtrip_spec (resumeOk playOk : Bool) (st : PlayerState)
    (hp : st.isPlaying = true) :
    ((handleVisibilityChange false resumeOk playOk st).1.polling = false ∧
     (handleVisibilityChange false resumeOk playOk st).1.isPlaying = true ∧
     (handleVisibilityChange false resumeOk playOk st).1.audioPaused = st.audioPaused ∧
     (handleVisibilityChange false resumeOk playOk st).1.audioTime = st.audioTime ∧
     (handleVisibilityChange false resumeOk playOk st).2 = 0) ∧
    (st.ctxSuspended = true → resumeOk = true →
      (handleVisibilityChange true resumeOk playOk st).1.ctxSuspended = false) ∧
    (st.audioPaused = true →
      (handleVisibilityChange true resumeOk playOk st).2 = 1 ∧
      (playOk = true →
        (handleVisibilityChange true resumeOk playOk st).1.isPlaying = true ∧
        (handleVisibilityChange true resumeOk playOk st).1.polling = true) ∧
      (playOk = false →
        (handleVisibilityChange true resumeOk playOk st).1.isPlaying = false ∧
        (handleVisibilityChange true resumeOk playOk st).1.error = st.error)) := by
  refine ⟨?_, ?_, ?_⟩
  · unfold handleVisibilityChange
    rw [if_neg (by simp), if_pos hp]
    exact ⟨rfl, hp, rfl, rfl, rfl⟩
  · intro hc hr
    unfold handleVisibilityChange
    cases hpa : st.audioPaused <;> cases playOk <;> simp [hp, hpa, hc, hr]
  · intro hpa
    unfold handleVisibilityChange
    rw [if_pos rfl]
    cases hcs : st.ctxSuspended <;> cases resumeOk <;> cases playOk <;>
      simp [hp, hpa]

/-- A concrete playing state with the output externally paused and the
context suspended, as after a hidden-tab interruption. -/
def demoSuspendedState : PlayerState :=
  { demoCatalogState with currentTrack := some "a.mp3", isPlaying := true,
                          audioPaused := true, ctxSuspended := true }

/-- Witness for C8 at the concrete state demoSuspendedState with a failing
resume attempt. -/
theorem visibility_roundtrip_spec_witness :
    ((handleVisibilityChange false true false demoSuspendedState).1.polling = false ∧
     (handleVisibilityChange false true false demoSuspendedState).1.isPlaying = true ∧
     (handleVisibilityChange false true false demoSuspendedState).1.audioPaused =
       demoSuspendedState.audioPaused ∧
     (handleVisibilityChange false true false demoSuspendedState).1.audioTime =
       demoSuspendedState.audioTime ∧
     (handleVisibilityChange false true false demoSuspendedState).2 = 0) ∧
    (demoSuspendedState.ctxSuspended = true → true = true →
      (handleVisibilityChange true true false demoSuspendedState).1.ctxSuspended = false) ∧
    (demoSuspendedState.audioPaused = true →
      (handleVisibilityChange true true false demoSuspendedState).2 = 1 ∧
      (false = true →
        (handleVisibilityChange true true false demoSuspendedState).1.isPlaying = true ∧
        (handleVisibilityChange true true false demoSuspendedState).1.polling = true) ∧
      (false = false →
        (handleVisibilityChange true true false demoSuspendedState).1.isPlaying = false ∧
        (handleVisibilityChange true true false demoSuspendedState).1.error =
          demoSuspendedState.error)) :=
  visibility_roundtrip_spec true false demoSuspendedState (by decide)

/-- startPlayback (player.tsx 1825-1873): returns unchanged when there is no
audio element or no current track ("Audio element or track not ready");
otherwise enters loading, resumes a suspended AudioContext, loads if needed,
and after a 500 ms delay awaits play() — on success it marks playing, hides
the start overlay, clears loading and error and starts the progress interval;
on failure it marks not playing and stores an error.  `ok` is the play()
outcome.  (The outer catch for a failed context resume sets an error and
clears loading but touches neither isPlaying nor currentTrack, so it is
subsumed by the ok = false branch for the invariant-relevant fields.) -/
def startPlayback (ok : Bool) (st : PlayerState) : PlayerState :=
  match st.currentTrack with
  | none => st
  | some _ =>
      let st1 := { st with isLoading := true, ctxSuspended := false }
      if ok then
        { st1 with isPlaying := true, showStartOverlay := false, isLoading := false,
                   error := none, polling := true, audioPaused := false }
      else
        { st1 with isPlaying := false, isLoading := false,
                   error := some "Failed to play the track. Please try again." }

/-- togglePlayPause (player.tsx 1876-1907): when playing it pauses; otherwise
it enters loading, resumes a suspended context and awaits play().  The JSX
mounts a <source> child only when currentTrack ≠ null (player.tsx 2400), and
play() on an element with no supported source rejects (NotSupportedError), so
the success branch is reachable only when ok holds AND a current track exists;
any other combination lands in the catch branch (player.tsx 1900-1905). -/
def togglePlayPause (ok : Bool) (st : PlayerState) : PlayerState :=
  if st.isPlaying then pauseOp st
  else
    let st1 := { st with isLoading := true, ctxSuspended := false }
    if ok && st1.currentTrack.isSome then
      { st1 with isPlaying := true, isLoading := false, error := none,
                 polling := true, audioPaused := false }
    else
      { st1 with isPlaying := false, isLoading := false,
                 error := some "Failed to resume playback. Please try again." }

/-- resetAudioSystem (player.tsx 2030-2073): enters loading, clears the error,
resets the displayed position, stops the progress interval, closes and
recreates the AudioContext (the fresh context starts suspended and the audio
element is reloaded, hence paused at 0), then — unless still on the start
overlay — calls startPlayback; on a close/create failure it stores an error.
`closeOk` is the context rebuild outcome, `playOk` the play() outcome of the
follow-up startPlayback. -/
def resetAudioSystem (closeOk playOk : Bool) (st : PlayerState) : PlayerState :=
  let st1 := { st with isLoading := true, error := none, currentTime := 0, polling := false }
  if closeOk then
    let st2 := { st1 with ctxSuspended := true, audioPaused := true, audioTime := 0,
                          isLoading := false }
    if st2.showStartOverlay then st2 else startPlayback playOk st2
  else
    { st1 with isLoading := false,
               error := some "Failed to reset audio system. Please reload the page." }

/-- The catalog fetch effect (player.tsx 1725-1756): on a failed fetch it
stores an error; on success with a nonempty list it stores the tracks (the
deferred initial selectRandomTrack call is a separate `select` event); on an
empty list it stores the no-tracks message. -/
def fetchTracks (result : Option (List String)) (st : PlayerState) : PlayerState :=
  match result with
  | none => { st with error := some "Failed to load music tracks" }
  | some ts =>
      if 0 < ts.length then { st with tracks := ts }
      else
        let m := "No music tracks found. Please add MP3 files to the /public/music/ folder."
        { st with error := some m }

/-- The once-per-second watchdog (player.tsx 2132-2145): if the session
believes it is playing while the element is actually paused, it self-corrects
to not playing and stops the progress interval. -/
def watchdogTick (st : PlayerState) : PlayerState :=
  if st.isPlaying && st.audioPaused then { st with isPlaying := false, polling := false }
  else st

/-- The element's play event handler (player.tsx 2380-2383) sets
isPlaying := true.  The play event fires only once the element actually starts
playback, which requires a mounted supported source — and the JSX mounts a
<source> only when currentTrack ≠ null (player.tsx 2400) — so the event cannot
occur without a current track; the impossible case is modelled as a no-op. -/
def onPlayEvent (st : PlayerState) : PlayerState :=
  if st.currentTrack.isSome then { st with isPlaying := true, audioPaused := false }
  else st

/-- One session operation or environment event.  Outcomes of the asynchronous
platform calls (play(), context resume/rebuild, the catalog fetch) and random
draws are carried in the event. -/
inductive Ev where
  | fetched (ts : List String)
  | fetchFailed
  | select (r : ℚ)
  | startPlay (ok : Bool)
  | toggle (ok : Bool)
  | skip (r : ℚ)
  | ended (r : ℚ)
  | errEvent (msg : String) (r : ℚ)
  | retryTrack (ok : Bool)
  | reset (closeOk playOk : Bool)
  | trackLoaded (ok : Bool)
  | visibility (visible resumeOk playOk : Bool)
  | watchdog
  | mediaPlay
  | mediaPause
  | metadataLoaded (d : ℚ)
  | muteToggle
  | drag (dur barLeft barWidth downX : ℚ) (moves : List ℚ)

/-- Dispatch of one event to the corresponding handler of the source. -/
def step (e : Ev) (st : PlayerState) : PlayerState :=
  match e with
  | .fetched ts => fetchTracks (some ts) st
  | .fetchFailed => fetchTracks none st
  | .select r => (selectRandomTrack r st).2
  | .startPlay ok => startPlayback ok st
  | .toggle ok => togglePlayPause ok st
  | .skip r => skipToNext r st
  | .ended r => handleTrackEnded r st
  | .errEvent msg r => (handleError msg r st).1
  | .retryTrack ok => retryCurrentTrack ok st
  | .reset closeOk playOk => resetAudioSystem closeOk playOk st
  | .trackLoaded ok => (trackChangeEffect ok st).1
  | .visibility v ro po => (handleVisibilityChange v ro po st).1
  | .watchdog => watchdogTick st
  | .mediaPlay => onPlayEvent st
  | .mediaPause => pauseOp st
  | .metadataLoaded d => { st with duration := d }
  | .muteToggle => { st with muted := !st.muted }
  | .drag dur bl bw x moves => (dragGesture dur bl bw x moves st).1

/-- Run a sequence of events from a state. -/
def run (evs : List Ev) (st : PlayerState) : PlayerState :=
  evs.foldl (fun s e => step e s) st

/-- The C7 invariant: a session that believes it is playing has a current
track. -/
def PlayingHasTrack (st : PlayerState) : Prop :=
  st.isPlaying = true → st.currentTrack ≠ none

theorem PlayingHasTrack_of (st stNew : PlayerState) (h : PlayingHasTrack st)
    (hp : stNew.isPlaying = st.isPlaying ∨ stNew.isPlaying = false)
    (hc : stNew.currentTrack = st.currentTrack ∨ ∃ t, stNew.currentTrack = some t) :
    PlayingHasTrack stNew := by
  intro hpl
  rcases hc with hcc | ⟨t, ht⟩
  · rcases hp with hpp | hpf
    · rw [hcc]
      exact h (hpp ▸ hpl)
    · rw [hpf] at hpl
      cases hpl
  · rw [ht]
    exact Option.some_ne_none t

theorem selectRandomTrack_preserves (r : ℚ) (st : PlayerState) :
    (selectRandomTrack r st).2.isPlaying = st.isPlaying ∧
    ((selectRandomTrack r st).2.currentTrack = st.currentTrack ∨
      ∃ t, (selectRandomTrack r st).2.currentTrack = some t) := by
  unfold selectRandomTrack
  split
  · exact ⟨rfl, Or.inl rfl⟩
  · split
    · exact ⟨rfl, Or.inr ⟨_, rfl⟩⟩
    · exact ⟨rfl, Or.inl rfl⟩

theorem handleError_fst_preserves (msg : String) (r : ℚ) (st : PlayerState) :
    (handleError msg r st).1.isPlaying = st.isPlaying ∧
    ((handleError msg r st).1.currentTrack = st.currentTrack ∨
      ∃ t, (handleError msg r st).1.currentTrack = some t) := by
  simp only [handleError]
  split
  · exact ⟨rfl, Or.inl rfl⟩
  · exact selectRandomTrack_preserves r _

theorem fetchTracks_fields (res : Option (List String)) (st : PlayerState) :
    (fetchTracks res st).isPlaying = st.isPlaying ∧
    (fetchTracks res st).currentTrack = st.currentTrack := by
  cases res with
  | none => exact ⟨rfl, rfl⟩
  | some ts =>
      simp only [fetchTracks]
      split
      · exact ⟨rfl, rfl⟩
      · exact ⟨rfl, rfl⟩

theorem startPlayback_preserves (ok : Bool) (st : PlayerState)
    (h : PlayingHasTrack st) : PlayingHasTrack (startPlayback ok st) := by
  simp only [startPlayback]
  split
  · exact h
  · rename_i t heq
    cases ok <;> intro _ <;> simp [heq]

theorem interaction_fields (b : Bool) (dur bl bw x : ℚ) (p : PlayerState × List ℚ) :
    (handleProgressBarInteraction b dur bl bw x p).1.isPlaying = p.1.isPlaying ∧
    (handleProgressBarInteraction b dur bl bw x p).1.currentTrack = p.1.currentTrack := by
  simp only [handleProgressBarInteraction]
  split
  · exact ⟨rfl, rfl⟩
  · split <;> exact ⟨rfl, rfl⟩

theorem dragGesture_fields (dur bl bw x : ℚ) (moves : List ℚ) (st : PlayerState) :
    (dragGesture dur bl bw x moves st).1.isPlaying = st.isPlaying ∧
    (dragGesture dur bl bw x moves st).1.currentTrack = st.currentTrack := by
  have hfold : ∀ (ms : List ℚ) (p : PlayerState × List ℚ),
      (ms.foldl (fun q y => handleProgressBarInteraction false dur bl bw y q) p).1.isPlaying
        = p.1.isPlaying ∧
      (ms.foldl (fun q y => handleProgressBarInteraction false dur bl bw y q) p).1.currentTrack
        = p.1.currentTrack := by
    intro ms
    induction ms with
    | nil => exact fun p => ⟨rfl, rfl⟩
    | cons a as ih =>
        intro p
        obtain ⟨h1, h2⟩ := ih (handleProgressBarInteraction false dur bl bw a p)
        obtain ⟨h3, h4⟩ := interaction_fields false dur bl bw a p
        exact ⟨h1.trans h3, h2.trans h4⟩
  simp only [dragGesture, dragInProgress, handleProgressBarUp]
  obtain ⟨h1, h2⟩ := hfold moves
    (handleProgressBarInteraction false dur bl bw x
      ({ st with isDragging := true, polling := false }, []))
  obtain ⟨h3, h4⟩ := interaction_fields false dur bl bw x
    ({ st with isDragging := true, polling := false }, [])
  split <;> exact ⟨h1.trans h3, h2.trans h4⟩

theorem step_preserves_PlayingHasTrack (e : Ev) (st : PlayerState)
    (h : PlayingHasTrack st) : PlayingHasTrack (step e st) := by
  cases e with
  | fetched ts =>
      obtain ⟨hp, hc⟩ := fetchTracks_fields (some ts) st
      exact PlayingHasTrack_of st _ h (Or.inl hp) (Or.inl hc)
  | fetchFailed =>
      obtain ⟨hp, hc⟩ := fetchTracks_fields none st
      exact PlayingHasTrack_of st _ h (Or.inl hp) (Or.inl hc)
  | select r =>
      obtain ⟨hp, hc⟩ := selectRandomTrack_preserves r st
      exact PlayingHasTrack_of st _ h (Or.inl hp) hc
  | startPlay ok => exact startPlayback_preserves ok st h
  | toggle ok =>
      show PlayingHasTrack (togglePlayPause ok st)
      simp only [togglePlayPause]
      split
      · intro hpl
        simp [pauseOp] at hpl
      · split
        · rename_i hok
          intro _
          simp only [Bool.and_eq_true] at hok
          rcases Option.isSome_iff_exists.1 hok.2 with ⟨t, ht⟩
          simp [ht]
        · intro hpl
          simp at hpl
  | skip r =>
      obtain ⟨hp, hc⟩ := selectRandomTrack_preserves r
        { st with polling := false, currentTime := 0 }
      exact PlayingHasTrack_of st _ h (Or.inl hp) hc
  | ended r =>
      obtain ⟨hp, hc⟩ := selectRandomTrack_preserves r
        { st with trackEnded := true, polling := false, currentTime := 0 }
      exact PlayingHasTrack_of st _ h (Or.inl hp) hc
  | errEvent msg r =>
      obtain ⟨hp, hc⟩ := handleError_fst_preserves msg r st
      exact PlayingHasTrack_of st _ h (Or.inl hp) hc
  | retryTrack ok =>
      show PlayingHasTrack (retryCurrentTrack ok st)
      simp only [retryCurrentTrack]
      split
      · exact h
      · rename_i t heq
        cases ok <;> intro _ <;> simp [heq]
  | reset closeOk playOk =>
      show PlayingHasTrack (resetAudioSystem closeOk playOk st)
      simp only [resetAudioSystem]
      split
      · split
        · exact PlayingHasTrack_of st _ h (Or.inl rfl) (Or.inl rfl)
        · exact startPlayback_preserves playOk _
            (PlayingHasTrack_of st _ h (Or.inl rfl) (Or.inl rfl))
      · exact PlayingHasTrack_of st _ h (Or.inl rfl) (Or.inl rfl)
  | trackLoaded ok =>
      show PlayingHasTrack (trackChangeEffect ok st).1
      simp only [trackChangeEffect]
      split
      · exact h
      · rename_i t heq
        split
        · split <;> intro _ <;> simp [heq]
        · intro _
          simp [heq]
  | visibility v ro po =>
      have hfields : ((handleVisibilityChange v ro po st).1.isPlaying = st.isPlaying ∨
          (handleVisibilityChange v ro po st).1.isPlaying = false) ∧
          (handleVisibilityChange v ro po st).1.currentTrack = st.currentTrack := by
        simp only [handleVisibilityChange]
        cases v <;> cases ro <;> cases po <;> cases hcs : st.ctxSuspended <;>
          cases hip : st.isPlaying <;> cases hap : st.audioPaused <;> simp [hcs, hip, hap]
      exact PlayingHasTrack_of st _ h hfields.1 (Or.inl hfields.2)
  | watchdog =>
      show PlayingHasTrack (watchdogTick st)
      simp only [watchdogTick]
      split
      · intro hpl
        simp at hpl
      · exact h
  | mediaPlay =>
      show PlayingHasTrack (onPlayEvent st)
      simp only [onPlayEvent]
      split
      · rename_i hsome
        intro _
        exact Option.isSome_iff_exists.1 hsome |>.elim fun t ht => by simp [ht]
      · exact h
  | mediaPause =>
      intro hpl
      simp [step, pauseOp] at hpl
  | metadataLoaded d => exact PlayingHasTrack_of st _ h (Or.inl rfl) (Or.inl rfl)
  | muteToggle => exact PlayingHasTrack_of st _ h (Or.inl rfl) (Or.inl rfl)
  | drag dur bl bw x moves =>
      obtain ⟨hp, hc⟩ := dragGesture_fields dur bl bw x moves st
      exact PlayingHasTrack_of st _ h (Or.inl hp) (Or.inl hc)

/-- C7. In every state reachable by any sequence of session operations
(catalog fetch, select, play, pause, toggle, skip, track-ended, playback
error, manual retry, audio reset, track-change load, visibility change,
watchdog tick, media play/pause events, metadata, mute, drag-seek gestures)
from a state satisfying it — in particular from the initial state — the
invariant holds: transport = Playing implies currentTrack ≠ null. -/
theorem playing_implies_currentTrack (evs : List Ev) (st : PlayerState)
    (h : st.isPlaying = true → st.currentTrack ≠ none) :
    (run evs st).isPlaying = true → (run evs st).currentTrack ≠ none := by
  induction evs generalizing st with
  | nil => exact h
  | cons e es ih =>
      exact ih (step e st) (step_preserves_PlayingHasTrack e st h)

/-- A concrete event sequence: pause via toggle, resume via the media play
event, a watchdog tick, a hide/show round trip, and an explicit start. -/
def demoTrace : List Ev :=
  [Ev.toggle true, Ev.mediaPlay, Ev.watchdog, Ev.visibility false true true,
   Ev.visibility true true true, Ev.startPlay true]

/-- Witness for C7: running the concrete trace demoTrace from the concrete
playing state demoSuspendedState ends in a state that is playing and still
has a current track. -/
theorem playing_implies_currentTrack_witness :
    (run demoTrace demoSuspendedState).isPlaying = true ∧
    (run demoTrace demoSuspendedState).currentTrack = some "a.mp3" := by
  have hinv := playing_implies_currentTrack demoTrace demoSuspendedState (by decide)
  refine ⟨by decide, ?_⟩
  revert hinv
  decide

/-- Observable state of the public/music directory as the route handler sees
it: absent (fs.existsSync is false), unreadable (fs.readdirSync throws), or
present with a list of entry names. -/
inductive DirState where
  | absent
  | unreadable
  | present (files : List String)

/-- An HTTP response of the route: a status code and a JSON body carrying
either a tracks array or an error string. -/
structure ApiResponse where
  status : Nat
  tracks : Option (List String)
  errMsg : Option String
  deriving DecidableEq

/-- GET of src/app/api/music/route.ts (lines 5-24): 404 with an error body
when the directory does not exist; otherwise the directory listing filtered to
names ending in ".mp3" as a 200 { tracks } response; a thrown read error lands
in the catch block, a 500 with an { error } body. -/
def GET : DirState → ApiResponse
  | DirState.absent =>
      { status := 404, tracks := none, errMsg := some "Music directory not found" }
  | DirState.unreadable =>
      { status := 500, tracks := none, errMsg := some "Failed to read music directory" }
  | DirState.present files =>
      { status := 200, tracks := some (files.filter (fun f => f.endsWith ".mp3")),
        errMsg := none }

/-- C9. The catalog listing endpoint responds 404 when the music directory is
absent, 500 with an error body when the directory read fails, and otherwise
200 with a tracks list containing exactly the directory entries that end in
".mp3" (same names, same multiplicity and order); a directory with no matching
entries yields a successful 200 with an empty list rather than an error. -/
theorem GET_spec (files : List String) :
    ((GET DirState.absent).status = 404 ∧ (GET DirState.absent).errMsg ≠ none) ∧
    ((GET DirState.unreadable).status = 500 ∧ (GET DirState.unreadable).errMsg ≠ none) ∧
    ((GET (DirState.present files)).status = 200 ∧
      (GET (DirState.present files)).errMsg = none ∧
      (GET (DirState.present files)).tracks =
        some (files.filter (fun f => f.endsWith ".mp3")) ∧
      (∀ x, x ∈ files.filter (fun f => f.endsWith ".mp3") ↔
        x ∈ files ∧ x.endsWith ".mp3" = true)) ∧
    ((∀ f ∈ files, f.endsWith ".mp3" = false) →
      (GET (DirState.present files)).status = 200 ∧
      (GET (DirState.present files)).tracks = some []) := by
  refine ⟨⟨rfl, by simp [GET]⟩, ⟨rfl, by simp [GET]⟩, ⟨rfl, rfl, rfl, ?_⟩, ?_⟩
  · intro x
    simp [List.mem_filter]
  · intro hnone
    refine ⟨rfl, ?_⟩
    have hfil : files.filter (fun f => f.endsWith ".mp3") = [] := by
      rw [List.filter_eq_nil_iff]
      intro a ha
      simp [hnone a ha]
    simp [GET, hfil]

/-- Witness for C9 at the concrete listing [] (an existing but empty
directory), discharging the no-matching-entries hypothesis. -/
theorem GET_spec_witness :
    ((GET DirState.absent).status = 404 ∧ (GET DirState.absent).errMsg ≠ none) ∧
    ((GET DirState.unreadable).status = 500 ∧ (GET DirState.unreadable).errMsg ≠ none) ∧
    ((GET (DirState.present [])).status = 200 ∧
      (GET (DirState.present [])).errMsg = none ∧
      (GET (DirState.present [])).tracks =
        some (List.filter (fun f => f.endsWith ".mp3") []) ∧
      (∀ x, x ∈ List.filter (fun f => f.endsWith ".mp3") [] ↔
        x ∈ ([] : List String) ∧ x.endsWith ".mp3" = true)) ∧
    ((∀ f ∈ ([] : List String), f.endsWith ".mp3" = false) →
      (GET (DirState.present [])).status = 200 ∧
      (GET (DirState.present [])).tracks = some []) :=
  GET_spec []

end MusicSite
